import Mathlib

/-!
Verification of tauri-plugin-mic-recorder (src/commands.rs, src/lib.rs).

Shallow embedding: the recorder's session state machine (`start_recording`,
`stop_recording`), the save-path derivation (`get_save_path`), the WAV spec
derivation (`wav_spec_from_config`, `sample_format`) and the audio callback
(`write_input_data`) are translated into pure Lean functions.  Fallible
external operations (device lookup, config query, filesystem, writer
creation, stream build/play, writer finalize, lock acquisition, individual
sample writes) are supplied by explicit environment records whose fields
carry the outcome the platform would produce; `Except String` mirrors the
Rust `Result<_, String>` values built with `map_err(|err| err.to_string())`.
-/

/-- hound::SampleFormat — the tag stored in the WAV header. -/
inductive SampleFormat where
  | Float : SampleFormat
  | Int : SampleFormat
deriving DecidableEq, Repr

/-- cpal::SampleFormat — the native sample representation a device delivers. -/
inductive CpalSampleFormat where
  | i8 | i16 | i32 | i64 | u8 | u16 | u32 | u64 | f32 | f64
deriving DecidableEq, Repr

/-- cpal::SampleFormat::sample_size — byte width of one sample. -/
def CpalSampleFormat.sample_size : CpalSampleFormat → Nat
  | .i8 => 1 | .i16 => 2 | .i32 => 4 | .i64 => 8
  | .u8 => 1 | .u16 => 2 | .u32 => 4 | .u64 => 8
  | .f32 => 4 | .f64 => 8

/-- cpal::SampleFormat::is_float. -/
def CpalSampleFormat.is_float : CpalSampleFormat → Bool
  | .f32 => true | .f64 => true | _ => false

/-- The formats for which `start_recording`'s match builds a stream
(commands.rs lines 149-183); every other format hits the
`_ => return Err("Unsupported sample format")` arm. -/
def CpalSampleFormat.is_supported : CpalSampleFormat → Bool
  | .i8 => true | .i16 => true | .i32 => true | .f32 => true
  | _ => false

/-- hound::WavSpec — the WAV header parameters (commands.rs line 263). -/
structure WavSpec where
  channels : Nat
  sample_rate : Nat
  bits_per_sample : Nat
  sample_format : SampleFormat
deriving DecidableEq, Repr

/-- cpal::SupportedStreamConfig — the configuration negotiated by
`default_input_config()`: channel count, sample rate, native format. -/
structure SupportedStreamConfig where
  channels : Nat
  sample_rate : Nat
  sample_format : CpalSampleFormat
deriving DecidableEq, Repr

/-- Converts a cpal::SampleFormat to a hound::SampleFormat
(commands.rs lines 253-259). -/
def sample_format (format : CpalSampleFormat) : SampleFormat :=
  if format.is_float then SampleFormat.Float else SampleFormat.Int

/-- Creates a WavSpec from a cpal::SupportedStreamConfig
(commands.rs lines 262-269). -/
def wav_spec_from_config (config : SupportedStreamConfig) : WavSpec :=
  { channels := config.channels
    sample_rate := config.sample_rate
    bits_per_sample := config.sample_format.sample_size * 8
    sample_format := sample_format config.sample_format }

/-- A filesystem path (std PathBuf), as its list of components. -/
abbrev FsPath : Type := List String

/-- hound::WavWriter state: the header spec it was created with and the
samples successfully written so far (in order). -/
structure WavWriter where
  spec : WavSpec
  samples : List Int
deriving DecidableEq, Repr

/-- The plugin's session `State` (commands.rs lines 27-32): the recording
flag, the stored save path, the writer slot and the stream slot.  The live
cpal stream carries no observable data, so the stream slot holds `Unit`. -/
structure State where
  is_recording : Bool
  save_path : Option FsPath
  writer : Option WavWriter
  stream : Option Unit
deriving DecidableEq, Repr

/-- `State::new` (commands.rs lines 34-43): the initial, inactive state. -/
def State.new : State :=
  { is_recording := false, save_path := none, writer := none, stream := none }

/-- The spec's session-state invariant (§3): `active == true` iff both
`writer` and `stream` are present; `destinationPath` is present iff
`active == true`. -/
def stateInvariant (s : State) : Prop :=
  (s.is_recording = true ↔ (s.writer.isSome = true ∧ s.stream.isSome = true)) ∧
  (s.save_path.isSome = true ↔ s.is_recording = true)

instance (s : State) : Decidable (stateInvariant s) := by
  unfold stateInvariant; infer_instance

/-- The clap `Opt` (commands.rs lines 47-66): the requested device name,
defaulting to "default". -/
structure Opt where
  device : String
deriving DecidableEq, Repr

/-- A local wall-clock instant as chrono sees it.  `Local::now().format`
with pattern "%Y%m%d%H%M%S" reads only the fields down to the second;
`nano` exists to distinguish instants inside the same clock second. -/
structure LocalTime where
  year : Nat
  month : Nat
  day : Nat
  hour : Nat
  minute : Nat
  second : Nat
  nano : Nat
deriving DecidableEq, Repr

/-- Zero-pad a number to `w` digits, as chrono's numeric format fields do. -/
def padNum (w : Nat) (n : Nat) : String :=
  let s := toString n
  String.mk (List.replicate (w - s.length) '0') ++ s

/-- `Local::now().format("%Y%m%d%H%M%S").to_string()` (commands.rs line
246): second-resolution timestamp; sub-second time is discarded. -/
def formatTimestamp (t : LocalTime) : String :=
  padNum 4 t.year ++ padNum 2 t.month ++ padNum 2 t.day ++
  padNum 2 t.hour ++ padNum 2 t.minute ++ padNum 2 t.second

/-- Environment for one `start_recording` call: the outcomes of every
fallible external step, in the order the code consults them. -/
structure StartEnv where
  /-- `host.default_input_device()` (line 123). -/
  default_input_device : Option String
  /-- `host.input_devices()` (line 126), as the list of device names;
  a device whose `name()` errors never compares equal, which is the same
  as its name being absent from this list. -/
  input_devices : Except String (List String)
  /-- `device.default_input_config()` (line 132). -/
  default_input_config : Except String SupportedStreamConfig
  /-- `app_handle.path().app_data_dir()` (line 238). -/
  app_data_dir : Except String FsPath
  /-- `create_dir_all(&save_dir)` (line 244). -/
  create_dir_all : Except String Unit
  /-- `Local::now()` (line 246). -/
  now : LocalTime
  /-- `WavWriter::create(&save_path, spec)` (line 139). -/
  writer_create : Except String Unit
  /-- `device.build_input_stream(...)` (lines 150-181). -/
  build_input_stream : Except String Unit
  /-- `stream.play()` (line 185). -/
  play : Except String Unit

/-- Device resolution (commands.rs lines 122-130): the default input
device when `opt.device == "default"`, else an exact-name match over the
enumerated input devices. -/
def resolve_device (opt : Opt) (env : StartEnv) : Except String String :=
  if opt.device = "default" then
    match env.default_input_device with
    | some d => Except.ok d
    | none => Except.error "No default input device available"
  else
    match env.input_devices with
    | Except.error e => Except.error e
    | Except.ok devices =>
      match devices.find? (fun x => x = opt.device) with
      | some d => Except.ok d
      | none => Except.error ("No input device found with name: " ++ opt.device)

/-- Gets the path where the recording file is stored
(commands.rs lines 237-250). -/
def get_save_path (env : StartEnv) : Except String FsPath :=
  match env.app_data_dir with
  | Except.error e => Except.error e
  | Except.ok dir =>
    let save_dir : FsPath := dir ++ ["tauri-plugin-mic-recorder"]
    match env.create_dir_all with
    | Except.error e => Except.error e
    | Except.ok _ =>
      let timestamp := formatTimestamp env.now
      Except.ok (save_dir ++ [timestamp ++ ".wav"])

/-- The body of `start_recording` after `is_recording` has been set to
true (commands.rs lines 84-191), acting on the flagged state `s1`.  Each
`match` arm mirrors a `?` early return; note that no error arm touches
`s1`, so the flag set at line 82 is never rolled back. -/
def start_setup (opt : Opt) (env : StartEnv) (s1 : State) :
    Except String Unit × State :=
  match resolve_device opt env with
  | Except.error e => (Except.error e, s1)
  | Except.ok _ =>
    match env.default_input_config with
    | Except.error e => (Except.error e, s1)
    | Except.ok config =>
      match get_save_path env with
      | Except.error e => (Except.error e, s1)
      | Except.ok save_path =>
        let spec := wav_spec_from_config config
        match env.writer_create with
        | Except.error e => (Except.error e, s1)
        | Except.ok _ =>
          let writer : WavWriter := { spec := spec, samples := [] }
          if config.sample_format.is_supported then
            match env.build_input_stream with
            | Except.error e => (Except.error e, s1)
            | Except.ok _ =>
              match env.play with
              | Except.error e => (Except.error e, s1)
              | Except.ok _ =>
                (Except.ok (),
                 { s1 with
                     save_path := some save_path
                     writer := some writer
                     stream := some () })
          else (Except.error "Unsupported sample format", s1)

/-- Starts recording audio (commands.rs lines 77-192).  Rejects with
"Recording is already in progress." when the flag is set; otherwise sets
the flag (line 82) and runs the setup steps. -/
def start_recording (opt : Opt) (env : StartEnv) (s : State) :
    Except String Unit × State :=
  if s.is_recording then
    (Except.error "Recording is already in progress.", s)
  else
    start_setup opt env { s with is_recording := true }

/-- Environment for one `stop_recording` call. -/
structure StopEnv where
  /-- `writer.finalize()` (line 222). -/
  finalize : Except String Unit
deriving Repr

/-- The observable actions `stop_recording` performs, in order, used to
state the teardown-ordering property. -/
inductive StopEvent where
  | takeStream | dropStream | takeWriter | finalizeWriter | takePath
deriving DecidableEq, Repr

/-- The final step of `stop_recording` (commands.rs lines 226-233): take
the stored save path and return it, or error if it was never set. -/
def take_save_path (s : State) (tr : List StopEvent) :
    Except String FsPath × State × List StopEvent :=
  match s.save_path with
  | some p => (Except.ok p, { s with save_path := none }, tr ++ [StopEvent.takePath])
  | none =>
    (Except.error "No recording in progress or save path not set.", s,
     tr ++ [StopEvent.takePath])

/-- Stops recording audio (commands.rs lines 208-234).  Returns the
result, the new state, and the trace of teardown actions performed. -/
def stop_recording (env : StopEnv) (s : State) :
    Except String FsPath × State × List StopEvent :=
  if !s.is_recording then
    (Except.error "No recording in progress.", s, [])
  else
    let s1 := { s with is_recording := false }
    let step1 : State × List StopEvent :=
      match s1.stream with
      | some _ => ({ s1 with stream := none }, [StopEvent.takeStream, StopEvent.dropStream])
      | none => (s1, [])
    match step1.1.writer with
    | some _ =>
      let s3 := { step1.1 with writer := none }
      let tr2 := step1.2 ++ [StopEvent.takeWriter, StopEvent.finalizeWriter]
      match env.finalize with
      | Except.error e => (Except.error e, s3, tr2)
      | Except.ok _ => take_save_path s3 tr2
    | none => take_save_path step1.1 step1.2

/-- The sample-writing loop inside the callback (commands.rs lines
279-282): for each sample in order, convert it with `U::from_sample` and
attempt `writer.write_sample`; a failed write is discarded by `.ok()` and
the loop continues.  `writeOk i` says whether the write of the i-th
sample of this buffer succeeds. -/
def writeLoop (conv : Int → Int) (writeOk : Nat → Bool) :
    Nat → List Int → List Int → List Int
  | _, [], acc => acc
  | i, x :: xs, acc =>
    writeLoop conv writeOk (i + 1) xs (if writeOk i then acc ++ [conv x] else acc)

/-- The samples the loop manages to append starting from buffer index
`i`: the converted samples at indices whose write succeeds, in order. -/
def keptFrom (conv : Int → Int) (writeOk : Nat → Bool) :
    Nat → List Int → List Int
  | _, [] => []
  | i, x :: xs =>
    (if writeOk i then [conv x] else []) ++ keptFrom conv writeOk (i + 1) xs

/-- Writes input data to the WAV writer (commands.rs lines 272-285),
expressed as a transformer of the writer slot behind the mutex.
`tryLockOk` is whether `writer.try_lock()` succeeds; on failure nothing
happens.  On success, if the slot is empty nothing happens; otherwise
each sample is converted and written, failed writes being ignored. -/
def write_input_data (conv : Int → Int) (tryLockOk : Bool)
    (writeOk : Nat → Bool) (input : List Int) (writer : Option WavWriter) :
    Option WavWriter :=
  if tryLockOk then
    match writer with
    | some w => some { w with samples := writeLoop conv writeOk 0 input w.samples }
    | none => writer
  else writer

/-- The audio callback's effect on the whole session: it reaches only the
writer slot (through the cloned `Arc` handle, commands.rs line 143), never
the flag, the path or the stream, and it returns no error. -/
def audio_callback (conv : Int → Int) (tryLockOk : Bool)
    (writeOk : Nat → Bool) (input : List Int) (s : State) : State :=
  { s with writer := write_input_data conv tryLockOk writeOk input s.writer }

/-! Concrete fixtures used by witnesses and counterexamples. -/

/-- The default clap options: device "default". -/
def opt0 : Opt := { device := "default" }

/-- A typical negotiated configuration: stereo, 44.1 kHz, 32-bit float. -/
def cfg0 : SupportedStreamConfig :=
  { channels := 2, sample_rate := 44100, sample_format := CpalSampleFormat.f32 }

/-- An instant: 2024-05-06 07:08:09.000000000. -/
def time1 : LocalTime :=
  { year := 2024, month := 5, day := 6, hour := 7, minute := 8, second := 9, nano := 0 }

/-- A later instant inside the same clock second: 2024-05-06 07:08:09.5. -/
def time2 : LocalTime :=
  { year := 2024, month := 5, day := 6, hour := 7, minute := 8, second := 9,
    nano := 500000000 }

/-- An instant one second later: 2024-05-06 07:08:10. -/
def time3 : LocalTime :=
  { year := 2024, month := 5, day := 6, hour := 7, minute := 8, second := 10, nano := 0 }

/-- An environment in which every external step succeeds, at instant `t`. -/
def envOkAt (t : LocalTime) : StartEnv :=
  { default_input_device := some "Microphone"
    input_devices := Except.ok ["Microphone"]
    default_input_config := Except.ok cfg0
    app_data_dir := Except.ok ["app-data"]
    create_dir_all := Except.ok ()
    now := t
    writer_create := Except.ok ()
    build_input_stream := Except.ok ()
    play := Except.ok () }

/-- An environment with no default input device (device lookup fails). -/
def envNoDevice : StartEnv := { envOkAt time1 with default_input_device := none }

/-- A stop environment in which finalize succeeds. -/
def stopOk : StopEnv := { finalize := Except.ok () }

/-- A stop environment in which finalize reports an I/O error. -/
def stopFail : StopEnv := { finalize := Except.error "finalize failed: io error" }

/-- A concrete writer with some recorded samples. -/
def writer0 : WavWriter := { spec := wav_spec_from_config cfg0, samples := [1, 2, 3] }

/-- The path `start_recording` derives from `envOkAt time1`. -/
def path0 : FsPath := ["app-data", "tauri-plugin-mic-recorder", "20240506070809.wav"]

/-- A concrete active session state satisfying the invariant. -/
def sActive : State :=
  { is_recording := true, save_path := some path0, writer := some writer0,
    stream := some () }

/-- A concrete sample conversion. -/
def conv0 : Int → Int := fun x => x + 1

/-- A write oracle under which every sample write succeeds. -/
def allOk : Nat → Bool := fun _ => true

/-- A write oracle under which the write at buffer index 1 fails. -/
def failSecond : Nat → Bool := fun i => decide (i ≠ 1)

/-! Helper lemmas. -/

/-- Every error branch of `start_setup` returns the flagged state
unchanged: the state is modified only on full success. -/
theorem start_setup_snd (opt : Opt) (env : StartEnv) (s1 : State) :
    (start_setup opt env s1).2 = s1 ∨ (start_setup opt env s1).1 = Except.ok () := by
  unfold start_setup
  repeat' split
  all_goals simp

/-- On success, `start_setup` stores a path, a fresh writer and the
stream in the flagged state, changing nothing else. -/
theorem start_setup_ok (opt : Opt) (env : StartEnv) (s1 : State)
    (h : (start_setup opt env s1).1 = Except.ok ()) :
    ∃ (p : FsPath) (w : WavWriter),
      (start_setup opt env s1).2 =
        { s1 with save_path := some p, writer := some w, stream := some () } := by
  unfold start_setup at h ⊢
  rcases hd : resolve_device opt env with e | d
  · simp [hd] at h
  rcases hc : env.default_input_config with e | config
  · simp [hd, hc] at h
  rcases hp : get_save_path env with e | p
  · simp [hd, hc, hp] at h
  rcases hw : env.writer_create with e | u
  · simp [hd, hc, hp, hw] at h
  cases hs : config.sample_format.is_supported
  · simp [hd, hc, hp, hw, hs] at h
  rcases hb : env.build_input_stream with e | u
  · simp [hd, hc, hp, hw, hs, hb] at h
  rcases hpl : env.play with e | u
  · simp [hd, hc, hp, hw, hs, hb, hpl] at h
  exact ⟨p, { spec := wav_spec_from_config config, samples := [] }, by simp [hs]⟩

/-- The writing loop appends exactly the samples whose writes succeed. -/
theorem writeLoop_eq_keptFrom (conv : Int → Int) (writeOk : Nat → Bool) :
    ∀ (input : List Int) (i : Nat) (acc : List Int),
      writeLoop conv writeOk i input acc = acc ++ keptFrom conv writeOk i input := by
  intro input
  induction input with
  | nil => intro i acc; simp [writeLoop, keptFrom]
  | cons x xs ih =>
    intro i acc
    by_cases h : writeOk i = true
    · simp [writeLoop, keptFrom, h, ih, List.append_assoc]
    · simp only [Bool.not_eq_true] at h
      simp [writeLoop, keptFrom, h, ih]

/-- When every write succeeds, the kept samples are the whole converted
buffer in order. -/
theorem keptFrom_all (conv : Int → Int) (writeOk : Nat → Bool)
    (h : ∀ i, writeOk i = true) :
    ∀ (input : List Int) (i : Nat),
      keptFrom conv writeOk i input = input.map conv := by
  intro input
  induction input with
  | nil => intro i; simp [keptFrom]
  | cons x xs ih => intro i; simp [keptFrom, h i, ih]

/-- Shape of a successful `get_save_path` result: the app-data directory
joined with the plugin directory and the timestamped file name. -/
theorem get_save_path_ok (env : StartEnv) (p : FsPath)
    (h : get_save_path env = Except.ok p) :
    ∃ dir, env.app_data_dir = Except.ok dir ∧
      p = (dir ++ ["tauri-plugin-mic-recorder"]) ++ [formatTimestamp env.now ++ ".wav"] := by
  unfold get_save_path at h
  repeat' split at h <;> simp_all

/-- Appending the same suffix to two strings is injective. -/
theorem string_append_right_cancel (a b t : String) (h : a ++ t = b ++ t) :
    a = b := by
  have h2 : (a ++ t).data = (b ++ t).data := congrArg String.data h
  simp only [String.data_append] at h2
  have h3 := List.append_cancel_right h2
  cases a; cases b; exact congrArg String.mk h3

/-! Claim theorems. -/

/-- Claim C5: for every buffer delivered to the audio callback, if the
writer lock is currently held by another party the callback leaves the
writer entirely unchanged (the whole buffer is dropped, no partial
append) and returns without blocking; if the lock is acquired (and the
individual sample writes succeed), each sample of the buffer is converted
and appended to the writer in order. -/
theorem write_input_data_lock_behavior (conv : Int → Int) (writeOk : Nat → Bool)
    (input : List Int) (g : Option WavWriter) (w : WavWriter) :
    (write_input_data conv false writeOk input g = g) ∧
    ((∀ i, writeOk i = true) →
      write_input_data conv true writeOk input (some w) =
        some { w with samples := w.samples ++ input.map conv }) := by
  constructor
  · rfl
  · intro hall
    simp [write_input_data, writeLoop_eq_keptFrom, keptFrom_all conv writeOk hall]

/-- Witness for C5 at a concrete buffer, writer and oracle. -/
theorem write_input_data_lock_behavior_witness :
    write_input_data conv0 false allOk [5, 6] (some writer0) = some writer0 ∧
    write_input_data conv0 true allOk [5, 6] (some writer0) =
      some { writer0 with samples := writer0.samples ++ List.map conv0 [5, 6] } :=
  ⟨(write_input_data_lock_behavior conv0 allOk [5, 6] (some writer0) writer0).1,
   (write_input_data_lock_behavior conv0 allOk [5, 6] (some writer0) writer0).2
     (fun _ => rfl)⟩

/-- Claim C7: for every negotiated capture configuration with a supported
sample format, the header spec of the created output file equals the
configuration exactly: channels, sample rate, bits per sample equal to
the native sample size in bytes times 8, and the Float tag exactly when
the native format is floating point (Int otherwise). -/
theorem wav_spec_matches_config (config : SupportedStreamConfig)
    (h : config.sample_format.is_supported = true) :
    (wav_spec_from_config config).channels = config.channels ∧
    (wav_spec_from_config config).sample_rate = config.sample_rate ∧
    (wav_spec_from_config config).bits_per_sample =
      config.sample_format.sample_size * 8 ∧
    ((wav_spec_from_config config).sample_format = SampleFormat.Float ↔
      config.sample_format.is_float = true) ∧
    ((wav_spec_from_config config).sample_format = SampleFormat.Int ↔
      config.sample_format.is_float = false) := by
  refine ⟨rfl, rfl, rfl, ?_, ?_⟩ <;>
    · unfold wav_spec_from_config sample_format
      cases hf : config.sample_format.is_float <;> simp [hf]

/-- Witness for C7 at the concrete configuration `cfg0`. -/
theorem wav_spec_matches_config_witness :
    cfg0.sample_format.is_supported = true ∧
    (wav_spec_from_config cfg0).channels = cfg0.channels ∧
    (wav_spec_from_config cfg0).sample_rate = cfg0.sample_rate ∧
    (wav_spec_from_config cfg0).bits_per_sample =
      cfg0.sample_format.sample_size * 8 ∧
    ((wav_spec_from_config cfg0).sample_format = SampleFormat.Float ↔
      cfg0.sample_format.is_float = true) ∧
    ((wav_spec_from_config cfg0).sample_format = SampleFormat.Int ↔
      cfg0.sample_format.is_float = false) :=
  ⟨rfl, wav_spec_matches_config cfg0 rfl⟩

/-- Claim C8: a start call made while the session is already active fails
with "Recording is already in progress." and changes nothing: the
returned state is exactly the input state, so flag, writer, stream, path
and the first session's file are untouched. -/
theorem start_rejected_while_active (opt : Opt) (env : StartEnv) (s : State)
    (h : s.is_recording = true) :
    start_recording opt env s =
      (Except.error "Recording is already in progress.", s) := by
  simp [start_recording, h]

/-- Witness for C8 at a concrete active state. -/
theorem start_rejected_while_active_witness :
    sActive.is_recording = true ∧
    start_recording opt0 (envOkAt time1) sActive =
      (Except.error "Recording is already in progress.", sActive) :=
  ⟨rfl, start_rejected_while_active opt0 (envOkAt time1) sActive rfl⟩

/-- Claim C9: a stop call made while the session is inactive fails with
"No recording in progress.", performs no teardown action (empty trace, so
no file is touched or created) and leaves the state unchanged. -/
theorem stop_rejected_while_inactive (env : StopEnv) (s : State)
    (h : s.is_recording = false) :
    stop_recording env s = (Except.error "No recording in progress.", s, []) := by
  simp [stop_recording, h]

/-- Witness for C9 at the initial state. -/
theorem stop_rejected_while_inactive_witness :
    State.new.is_recording = false ∧
    stop_recording stopOk State.new =
      (Except.error "No recording in progress.", State.new, []) :=
  ⟨rfl, stop_rejected_while_inactive stopOk State.new rfl⟩

/-- Claim C10: the audio callback can never fail or alter session control
state: it is a total function into `State` (no error value exists), it
preserves the recording flag, the save path and the stream slot for every
lock outcome and every write oracle; with the lock acquired and an empty
writer slot the buffer is silently discarded; and failed individual
sample writes are silently skipped, the remaining samples being appended
in order. -/
theorem audio_callback_never_fails (conv : Int → Int) (tryLockOk : Bool)
    (writeOk : Nat → Bool) (input : List Int) (s : State) :
    (audio_callback conv tryLockOk writeOk input s).is_recording =
      s.is_recording ∧
    (audio_callback conv tryLockOk writeOk input s).save_path = s.save_path ∧
    (audio_callback conv tryLockOk writeOk input s).stream = s.stream ∧
    (s.writer = none →
      (audio_callback conv tryLockOk writeOk input s).writer = none) ∧
    (∀ w, s.writer = some w → tryLockOk = true →
      (audio_callback conv tryLockOk writeOk input s).writer =
        some { w with samples := w.samples ++ keptFrom conv writeOk 0 input }) := by
  refine ⟨rfl, rfl, rfl, ?_, ?_⟩
  · intro h; cases tryLockOk <;> simp [audio_callback, write_input_data, h]
  · intro w hw hl
    subst hl
    simp [audio_callback, write_input_data, hw, writeLoop_eq_keptFrom]

/-- Witness for C10: a failing write at index 1 drops sample 6 but keeps
samples 5 and 7, and the control state is untouched. -/
theorem audio_callback_never_fails_witness :
    sActive.writer = some writer0 ∧
    (audio_callback conv0 true failSecond [5, 6, 7] sActive).is_recording =
      sActive.is_recording ∧
    (audio_callback conv0 true failSecond [5, 6, 7] sActive).writer =
      some { writer0 with
              samples := writer0.samples ++ keptFrom conv0 failSecond 0 [5, 6, 7] } :=
  ⟨rfl,
   (audio_callback_never_fails conv0 true failSecond [5, 6, 7] sActive).1,
   (audio_callback_never_fails conv0 true failSecond [5, 6, 7] sActive).2.2.2.2
     writer0 rfl rfl⟩

/-- Claim C4: for every stop call on an active session whose writer
finalize fails, stop returns the finalize error to the caller and the
session nevertheless ends inactive: flag false, writer and stream both
absent, so the session is never stuck in the recording state. -/
theorem stop_inactive_despite_finalize_failure (env : StopEnv) (s : State)
    (e : String) (hrec : s.is_recording = true) (hw : s.writer.isSome = true)
    (hfin : env.finalize = Except.error e) :
    (stop_recording env s).1 = Except.error e ∧
    (stop_recording env s).2.1.is_recording = false ∧
    (stop_recording env s).2.1.writer = none ∧
    (stop_recording env s).2.1.stream = none := by
  obtain ⟨w, hw2⟩ := Option.isSome_iff_exists.mp hw
  rcases hst : s.stream with _ | u <;>
    simp [stop_recording, hrec, hst, hw2, hfin]

/-- Witness for C4 at the concrete active state and failing finalize. -/
theorem stop_inactive_despite_finalize_failure_witness :
    sActive.is_recording = true ∧
    sActive.writer.isSome = true ∧
    stopFail.finalize = Except.error "finalize failed: io error" ∧
    (stop_recording stopFail sActive).1 =
      Except.error "finalize failed: io error" ∧
    (stop_recording stopFail sActive).2.1.is_recording = false ∧
    (stop_recording stopFail sActive).2.1.writer = none ∧
    (stop_recording stopFail sActive).2.1.stream = none :=
  ⟨rfl, rfl, rfl,
   stop_inactive_despite_finalize_failure stopFail sActive
     "finalize failed: io error" rfl rfl rfl⟩

/-- Claim C6: in every execution of stop on an active session (stream and
writer present), the teardown trace starts with taking and dropping the
stream and only then taking and finalizing the writer, and each of these
actions occurs exactly once — so the stream is destroyed strictly before
the writer is touched. -/
theorem stream_destroyed_before_finalize (env : StopEnv) (s : State)
    (hrec : s.is_recording = true) (hst : s.stream = some ())
    (hw : s.writer.isSome = true) :
    List.take 4 (stop_recording env s).2.2 =
      [StopEvent.takeStream, StopEvent.dropStream, StopEvent.takeWriter,
       StopEvent.finalizeWriter] ∧
    ((stop_recording env s).2.2).count StopEvent.dropStream = 1 ∧
    ((stop_recording env s).2.2).count StopEvent.takeWriter = 1 ∧
    ((stop_recording env s).2.2).count StopEvent.finalizeWriter = 1 := by
  obtain ⟨w, hw2⟩ := Option.isSome_iff_exists.mp hw
  rcases hfin : env.finalize with e | u <;>
    rcases hsp : s.save_path with _ | p <;>
      simp [stop_recording, take_save_path, hrec, hst, hw2, hfin, hsp, List.count_cons]

/-- Witness for C6 at the concrete active state with failing finalize. -/
theorem stream_destroyed_before_finalize_witness :
    sActive.is_recording = true ∧
    sActive.stream = some () ∧
    sActive.writer.isSome = true ∧
    List.take 4 (stop_recording stopFail sActive).2.2 =
      [StopEvent.takeStream, StopEvent.dropStream, StopEvent.takeWriter,
       StopEvent.finalizeWriter] ∧
    ((stop_recording stopFail sActive).2.2).count StopEvent.dropStream = 1 :=
  ⟨rfl, rfl, rfl,
   (stream_destroyed_before_finalize stopFail sActive rfl rfl rfl).1,
   (stream_destroyed_before_finalize stopFail sActive rfl rfl rfl).2.1⟩

/-- Counterexample to C1 as stated: a start in which device resolution
fails (no default input device) returns the error with the active flag
still true, and the next start from that state is rejected with
"Recording is already in progress." — the rollback the claim asserts does
not happen. -/
theorem start_rollback_counterexample :
    (start_recording opt0 envNoDevice State.new).1 =
      Except.error "No default input device available" ∧
    ((start_recording opt0 envNoDevice State.new).2).is_recording = true ∧
    (start_recording opt0 (envOkAt time1)
        (start_recording opt0 envNoDevice State.new).2).1 =
      Except.error "Recording is already in progress." := by
  refine ⟨?_, ?_, ?_⟩ <;> rfl

/-- Amended C1: when a step after setting the active flag fails, the
error is returned and no writer, stream, or destination path is stored
(the state is the input state with only the flag set), but the flag is
NOT rolled back: it remains true, so every subsequent start from that
state is rejected with "Recording is already in progress.". -/
theorem start_failure_leaves_flag_set (opt : Opt) (env : StartEnv) (s : State)
    (e : String) (hidle : s.is_recording = false)
    (herr : (start_recording opt env s).1 = Except.error e) :
    (start_recording opt env s).2 = { s with is_recording := true } ∧
    ∀ (opt2 : Opt) (env2 : StartEnv),
      (start_recording opt2 env2 (start_recording opt env s).2).1 =
        Except.error "Recording is already in progress." := by
  have hstart : start_recording opt env s =
      start_setup opt env { s with is_recording := true } := by
    simp [start_recording, hidle]
  rw [hstart] at herr ⊢
  rcases start_setup_snd opt env { s with is_recording := true } with h2 | h2
  · refine ⟨h2, ?_⟩
    intro opt2 env2
    rw [h2]
    simp [start_recording]
  · rw [h2] at herr; simp at herr

/-- Witness for the amended C1 at the concrete no-device environment. -/
theorem start_failure_leaves_flag_set_witness :
    State.new.is_recording = false ∧
    (start_recording opt0 envNoDevice State.new).1 =
      Except.error "No default input device available" ∧
    (start_recording opt0 envNoDevice State.new).2 =
      { State.new with is_recording := true } ∧
    (start_recording opt0 (envOkAt time2)
        (start_recording opt0 envNoDevice State.new).2).1 =
      Except.error "Recording is already in progress." :=
  ⟨rfl, rfl,
   (start_failure_leaves_flag_set opt0 envNoDevice State.new
     "No default input device available" rfl rfl).1,
   (start_failure_leaves_flag_set opt0 envNoDevice State.new
     "No default input device available" rfl rfl).2 opt0 (envOkAt time2)⟩

/-- Counterexample to C2 as stated: the initial state satisfies the
invariant, yet a start whose device resolution fails leaves a state
violating it (flag true, but no writer, stream or path stored). -/
theorem invariant_counterexample :
    stateInvariant State.new ∧
    ¬ stateInvariant (start_recording opt0 envNoDevice State.new).2 := by
  constructor <;> decide

/-- Amended C2: successful starts, starts rejected while active,
successful stops and stops rejected while inactive all preserve the
invariant; but a start that fails after setting the flag leaves the flag
true with no writer, stream or path stored (invariant broken), and a
stop on an active invariant-satisfying session that fails (finalize
error) leaves the destination path stored while inactive (invariant
broken). -/
theorem session_invariant_amended (opt : Opt) (env : StartEnv) (senv : StopEnv)
    (s : State) (hinv : stateInvariant s) :
    ((start_recording opt env s).1 = Except.ok () →
      stateInvariant (start_recording opt env s).2) ∧
    (s.is_recording = true → (start_recording opt env s).2 = s) ∧
    (s.is_recording = false →
      ∀ e, (start_recording opt env s).1 = Except.error e →
        (start_recording opt env s).2 = { s with is_recording := true } ∧
        ¬ stateInvariant (start_recording opt env s).2) ∧
    (∀ p, (stop_recording senv s).1 = Except.ok p →
      stateInvariant (stop_recording senv s).2.1) ∧
    (s.is_recording = false → (stop_recording senv s).2.1 = s) ∧
    (s.is_recording = true →
      ∀ e, (stop_recording senv s).1 = Except.error e →
        (stop_recording senv s).2.1 =
          { is_recording := false, save_path := s.save_path, writer := none,
            stream := none } ∧
        ¬ stateInvariant (stop_recording senv s).2.1) := by
  refine ⟨?_, ?_, ?_, ?_, ?_, ?_⟩
  · intro hok
    cases hrec : s.is_recording with
    | true => simp [start_recording, hrec] at hok
    | false =>
      have hstart : start_recording opt env s =
          start_setup opt env { s with is_recording := true } := by
        simp [start_recording, hrec]
      rw [hstart] at hok ⊢
      obtain ⟨p, w, hw⟩ := start_setup_ok opt env _ hok
      rw [hw]
      simp [stateInvariant]
  · intro hrec; simp [start_recording, hrec]
  · intro hrec e herr
    have hstart : start_recording opt env s =
        start_setup opt env { s with is_recording := true } := by
      simp [start_recording, hrec]
    rw [hstart] at herr ⊢
    rcases start_setup_snd opt env { s with is_recording := true } with h2 | h2
    · have hsp : s.save_path.isSome = false := by
        have h3 := hinv.2
        rw [hrec] at h3
        simpa using h3
      refine ⟨h2, ?_⟩
      rw [h2]
      simp [stateInvariant, hsp]
    · rw [h2] at herr; simp at herr
  · intro p hok
    cases hrec : s.is_recording with
    | false => simp [stop_recording, hrec] at hok
    | true =>
      rcases hst : s.stream with _ | u <;>
        rcases hwr : s.writer with _ | w <;>
          rcases hfin : senv.finalize with efin | u2 <;>
            rcases hsp : s.save_path with _ | pp <;>
              simp_all [stop_recording, take_save_path, stateInvariant]
  · intro hrec; simp [stop_recording, hrec]
  · intro hrec e herr
    have h1 := hinv.1.mp hrec
    obtain ⟨w, hwr⟩ := Option.isSome_iff_exists.mp h1.1
    have hstu : s.stream = some () := by
      obtain ⟨u, hst⟩ := Option.isSome_iff_exists.mp h1.2
      cases u; exact hst
    obtain ⟨p, hsp2⟩ := Option.isSome_iff_exists.mp (hinv.2.mpr hrec)
    rcases hfin : senv.finalize with efin | u2
    · constructor
      · simp [stop_recording, hrec, hstu, hwr, hfin, hsp2]
      · simp [stop_recording, stateInvariant, hrec, hstu, hwr, hfin, hsp2]
    · simp [stop_recording, take_save_path, hrec, hstu, hwr, hfin, hsp2] at herr

/-- Witness for the amended C2: concrete initial state and failing start. -/
theorem session_invariant_amended_witness :
    stateInvariant State.new ∧
    (start_recording opt0 envNoDevice State.new).2 =
      { State.new with is_recording := true } ∧
    ¬ stateInvariant (start_recording opt0 envNoDevice State.new).2 :=
  ⟨by decide,
   ((session_invariant_amended opt0 envNoDevice stopOk State.new
       (by decide)).2.2.1 rfl "No default input device available" rfl).1,
   ((session_invariant_amended opt0 envNoDevice stopOk State.new
       (by decide)).2.2.1 rfl "No default input device available" rfl).2⟩

/-- Counterexample to C3 as stated: two distinct successful start calls
in the same clock second (instants `time1` and `time2`, which differ only
below the second) produce the same destination path. -/
theorem save_path_collision_counterexample :
    time1 ≠ time2 ∧
    (start_recording opt0 (envOkAt time1) State.new).1 = Except.ok () ∧
    (start_recording opt0 (envOkAt time2)
        (stop_recording stopOk
          (start_recording opt0 (envOkAt time1) State.new).2).2.1).1 =
      Except.ok () ∧
    (start_recording opt0 (envOkAt time1) State.new).2.save_path = some path0 ∧
    (start_recording opt0 (envOkAt time2)
        (stop_recording stopOk
          (start_recording opt0 (envOkAt time1) State.new).2).2.1).2.save_path =
      some path0 := by
  refine ⟨by decide, ?_, ?_, ?_, ?_⟩ <;> rfl

/-- Amended C3: two successful start calls produce distinct destination
paths exactly when their second-resolution formatted timestamps differ
(given the same app-data directory); two starts whose instants fall in
the same formatted second produce the same path. -/
theorem save_path_distinct_iff_timestamp (env1 env2 : StartEnv)
    (p1 p2 : FsPath)
    (h1 : get_save_path env1 = Except.ok p1)
    (h2 : get_save_path env2 = Except.ok p2)
    (hdir : env1.app_data_dir = env2.app_data_dir) :
    (formatTimestamp env1.now ≠ formatTimestamp env2.now → p1 ≠ p2) ∧
    (formatTimestamp env1.now = formatTimestamp env2.now → p1 = p2) := by
  obtain ⟨d1, hd1, hp1⟩ := get_save_path_ok env1 p1 h1
  obtain ⟨d2, hd2, hp2⟩ := get_save_path_ok env2 p2 h2
  rw [hd1, hd2] at hdir
  injection hdir with hd
  subst hd
  constructor
  · intro hts heq
    apply hts
    rw [hp1, hp2] at heq
    have h3 := List.append_cancel_left heq
    simp only [List.cons.injEq, and_true] at h3
    exact string_append_right_cancel _ _ _ h3
  · intro hts
    rw [hp1, hp2, hts]

/-- Witness for the amended C3: instants one second apart give distinct
paths. -/
theorem save_path_distinct_iff_timestamp_witness :
    get_save_path (envOkAt time1) = Except.ok path0 ∧
    get_save_path (envOkAt time3) =
      Except.ok ["app-data", "tauri-plugin-mic-recorder", "20240506070810.wav"] ∧
    path0 ≠ ["app-data", "tauri-plugin-mic-recorder", "20240506070810.wav"] :=
  ⟨rfl, rfl,
   (save_path_distinct_iff_timestamp (envOkAt time1) (envOkAt time3) path0
       ["app-data", "tauri-plugin-mic-recorder", "20240506070810.wav"]
       rfl rfl rfl).1 (by decide)⟩
